import Mathlib

/-!
Verification of the animation glue layer of the g-sap-learning-project
repository. The repository is a client-side presentation layer driving
the GSAP animation engine; the definitions below are shallow embeddings
of its event handlers, scroll-trigger registrations and configuration
factories, with all pixel/second quantities represented as rationals.
-/

set_option maxHeartbeats 1000000

/-! ## Pointer-follow interaction (hooks/useMagnetic.ts) -/

/-- Bounding client rectangle of a DOM element, as returned by
getBoundingClientRect: left/top corner plus width and height, in px. -/
structure Rect where
  left : ℚ
  top : ℚ
  width : ℚ
  height : ℚ
  deriving DecidableEq

/-- Target of a gsap.to / gsap.from call: the x/y translation requested
for the element together with the tween duration and ease string. -/
structure TweenVars where
  x : ℚ
  y : ℚ
  duration : ℚ
  ease : String
  deriving DecidableEq

namespace UseMagnetic

/-- Embedding of handleMouseMove from src/hooks/useMagnetic.ts (lines
38-63): when the element ref is absent the handler returns without
registering anything; otherwise it computes the element center from
the bounding rect, the pointer-to-center delta, and requests a tween
to (deltaX * strength, deltaY * strength). -/
def handleMouseMove (strength duration : ℚ) (element : Option Rect)
    (clientX clientY : ℚ) : Option TweenVars :=
  match element with
  | none => none
  | some rect =>
    let centerX := rect.left + rect.width / 2
    let centerY := rect.top + rect.height / 2
    let deltaX := clientX - centerX
    let deltaY := clientY - centerY
    some { x := deltaX * strength, y := deltaY * strength,
           duration := duration, ease := "power2.out" }

/-- Embedding of handleMouseLeave from src/hooks/useMagnetic.ts (lines
65-80): when the element ref is absent the handler returns without
registering anything; otherwise it requests a tween back to (0, 0)
with the elastic ease. -/
def handleMouseLeave (resetDuration : ℚ) (element : Option Rect) :
    Option TweenVars :=
  match element with
  | none => none
  | some _ =>
    some { x := 0, y := 0, duration := resetDuration,
           ease := "elastic.out(1, 0.3)" }

/-- Default strength from the hook options (0.3). -/
def defaultStrength : ℚ := 3 / 10

end UseMagnetic

/-! ## MagneticButton (utils/animations.ts, appended component) -/

namespace MagneticButton

/-- One mouse-move on the MagneticButton issues two engine calls; this
record holds both requested tween targets in order (button container
first, inner text second). -/
structure MoveCalls where
  button : TweenVars
  text : TweenVars
  deriving DecidableEq

/-- Embedding of handleMouseMove of MagneticButton (animations.ts
lines 171-195): guarded on both refs; offset is computed from the
button rect only (clientX - rect.left - rect.width / 2); the button
is tweened by 0.3 of the offset and the inner text by 0.15 of it. -/
def handleMouseMove (buttonRef textRef : Option Rect)
    (clientX clientY : ℚ) : Option MoveCalls :=
  match buttonRef, textRef with
  | some rect, some _ =>
    let x := clientX - rect.left - rect.width / 2
    let y := clientY - rect.top - rect.height / 2
    some { button := { x := x * (3/10), y := y * (3/10),
                       duration := 4/10, ease := "power2.out" },
           text := { x := x * (15/100), y := y * (15/100),
                     duration := 4/10, ease := "power2.out" } }
  | _, _ => none

/-- Embedding of handleMouseLeave of MagneticButton (animations.ts
lines 197-219): guarded on both refs; both elements are tweened back
to (0, 0) with the elastic snap-back ease. -/
def handleMouseLeave (buttonRef textRef : Option Rect) :
    Option MoveCalls :=
  match buttonRef, textRef with
  | some _, some _ =>
    some { button := { x := 0, y := 0, duration := 7/10,
                       ease := "elastic.out(1, 0.3)" },
           text := { x := 0, y := 0, duration := 7/10,
                     ease := "elastic.out(1, 0.3)" } }
  | _, _ => none

end MagneticButton

/-! ## Scroll-scrubbed mappings

A ScrollTrigger registered with scrub maps the page scroll position to
an animation progress fraction. Per the engine semantics restated in
the repository's own comments (FeatureList: "scrub: true means 1:1
mapping between scroll and progress. Unlike scrub: 1 (which adds a 1s
buffer), true is instant"; SVGMorphSection: "scrub: 1 means there's a
1-second lag between scroll position and animation position"), the
target progress is the clamped linear ramp between the start and end
scroll positions; scrub: true displays that target directly, while
scrub: n chases it with a smoothing window of about n seconds. -/

/-- Value of the scrub field: boolean (true = instant 1:1) or a number
of seconds of smoothing. -/
inductive ScrubSetting
  | instant
  | smoothed (secs : ℚ)
  deriving DecidableEq

/-- One registered scrubbed scroll-trigger: the scroll positions at
which progress is 0 and 1, and the scrub setting. -/
structure ScrubMapping where
  startPos : ℚ
  endPos : ℚ
  scrub : ScrubSetting
  deriving DecidableEq

/-- Target progress of a scrubbed trigger at scroll position p:
the linear ramp (p - start) / (end - start) clamped to [0, 1]. -/
def scrubTarget (m : ScrubMapping) (p : ℚ) : ℚ :=
  max 0 (min 1 ((p - m.startPos) / (m.endPos - m.startPos)))

/-- One ticker frame of smoothed scrubbing: the displayed progress
moves toward the target by the elapsed fraction dt / secs of the
smoothing window (capped at reaching the target). -/
def scrubStep (secs target displayed dt : ℚ) : ℚ :=
  displayed + (target - displayed) * min (dt / secs) 1

/-- Displayed progress after a history of frames, each frame giving
the scroll position and the elapsed time of that frame. An instant
(scrub: true) mapping displays the target of the latest position; a
smoothed (scrub: n) mapping chases it frame by frame. -/
def runScrub (m : ScrubMapping) (displayed : ℚ) :
    List (ℚ × ℚ) → ℚ
  | [] => displayed
  | (p, dt) :: rest =>
    match m.scrub with
    | ScrubSetting.instant => runScrub m (scrubTarget m p) rest
    | ScrubSetting.smoothed secs =>
      runScrub m (scrubStep secs (scrubTarget m p) displayed dt) rest

/-- Scroll position of the last frame of a history, if any. -/
def lastScroll (h : List (ℚ × ℚ)) : Option ℚ :=
  h.getLast?.map Prod.fst

/-- Registration of HorizontalScrollSection.tsx (lines 84-109):
trigger starts at 'top top' (scroll position = the section's document
top), ends at '+=totalScrollWidth', with scrub: true. -/
def horizontalScrollMapping (sectionTop totalScrollWidth : ℚ) :
    ScrubMapping :=
  { startPos := sectionTop,
    endPos := sectionTop + totalScrollWidth,
    scrub := ScrubSetting.instant }

/-- Per-item registration of FeatureList (part_005 lines 90-98):
start 'top 65%' (the item's top reaches 65% of the viewport height
from the viewport top), end 'top 35%', with scrub: true. -/
def featureItemMapping (itemTop vh : ℚ) : ScrubMapping :=
  { startPos := itemTop - (65 / 100) * vh,
    endPos := itemTop - (35 / 100) * vh,
    scrub := ScrubSetting.instant }

/-- Registration of SVGMorphSection (part_003 lines 51-69): start
'top center', end 'bottom center', with scrub: 1 (a one-second
smoothing buffer, per the comment on lines 61-66). -/
def svgMorphMapping (sectionTop sectionHeight vh : ℚ) : ScrubMapping :=
  { startPos := sectionTop - vh / 2,
    endPos := sectionTop + sectionHeight - vh / 2,
    scrub := ScrubSetting.smoothed 1 }

/-- Registration of the AboutHero parallax background (AboutHero.tsx
lines 66-76): trigger containerRef, start 'top top' (scroll position
= the container's document top), end 'bottom top', with scrub: true. -/
def aboutHeroParallaxMapping (sectionTop sectionHeight : ℚ) : ScrubMapping :=
  { startPos := sectionTop,
    endPos := sectionTop + sectionHeight,
    scrub := ScrubSetting.instant }

/-- Registration of the TimelineSection line tween
(TimelineSection.tsx lines 141-150): start 'top 50%', end
'bottom 50%', with scrub: 1. -/
def timelineLineMapping (sectionTop sectionHeight vh : ℚ) : ScrubMapping :=
  { startPos := sectionTop - (50 / 100) * vh,
    endPos := sectionTop + sectionHeight - (50 / 100) * vh,
    scrub := ScrubSetting.smoothed 1 }

/-- Registration of the ProcessSection line tween (ProcessSection.tsx
lines 42-51): start 'top 60%', end 'bottom 40%', with scrub: 1. -/
def processLineMapping (sectionTop sectionHeight vh : ℚ) : ScrubMapping :=
  { startPos := sectionTop - (60 / 100) * vh,
    endPos := sectionTop + sectionHeight - (40 / 100) * vh,
    scrub := ScrubSetting.smoothed 1 }

/-- The profile asserted of a scrubbed scroll-to-progress mapping:
0 at or before the start threshold, 1 at or after the end threshold,
and non-decreasing in between. -/
def ClampedMonotone (m : ScrubMapping) : Prop :=
  (∀ p, p ≤ m.startPos → scrubTarget m p = 0) ∧
  (∀ p, m.endPos ≤ p → scrubTarget m p = 1) ∧
  (∀ p q, p ≤ q → scrubTarget m p ≤ scrubTarget m q)

/-! ## Entrance animations: once-guarded scroll triggers -/

/-- Scroll events relevant to a ScrollTrigger with toggleActions:
entering forward, leaving forward, re-entering backwards, leaving
backwards. -/
inductive ScrollEvent
  | enter
  | leave
  | enterBack
  | leaveBack
  deriving DecidableEq

/-- State of one registered entrance trigger: whether its animation
has played and whether the trigger is still alive (once: true kills
the trigger after its first play). -/
structure TriggerState where
  played : Bool
  alive : Bool
  deriving DecidableEq

/-- Initial state of a freshly registered entrance trigger. -/
def initTrigger : TriggerState := { played := false, alive := true }

/-- One scroll event against an entrance trigger registered with
toggleActions "play none none none" and once: true, the configuration
of SectionWrapper.tsx (lines 48-60) and the default of
createScrollTriggerConfig (animations.ts lines 109-110): only an
enter event plays, and once: true kills the trigger right after the
first play. Returns the new state and whether the animation started
playing on this event. -/
def onceTriggerStep (s : TriggerState) (e : ScrollEvent) :
    TriggerState × Bool :=
  match e with
  | ScrollEvent.enter =>
    if s.alive then ({ played := true, alive := false }, true) else (s, false)
  | _ => (s, false)

/-- Number of times the entrance animation starts playing over a
sequence of scroll events. -/
def triggerPlays (s : TriggerState) : List ScrollEvent → ℕ
  | [] => 0
  | e :: rest =>
    let r := onceTriggerStep s e
    (if r.2 then 1 else 0) + triggerPlays r.1 rest

/-! ## GsapBasicsShowcase (part_001): mount and Replay button -/

/-- State of the GsapBasicsShowcase component: the current GSAP
context (ctx ref), a counter supplying fresh context ids, and how
many times the entrance animations have been started. -/
structure ShowcaseState where
  ctx : Option ℕ
  nextCtx : ℕ
  plays : ℕ
  deriving DecidableEq

/-- Embedding of runAnimations (part_001 lines 41-108): revert the
old GSAP context if present, create a fresh context, and start both
demo animations (the from-box entrance among them). -/
def runAnimations (s : ShowcaseState) : ShowcaseState :=
  let s1 :=
    match s.ctx with
    | some _ => { s with ctx := none }
    | none => s
  { ctx := some s1.nextCtx, nextCtx := s1.nextCtx + 1,
    plays := s1.plays + 1 }

/-- State of the showcase before the component mounts. -/
def showcaseInit : ShowcaseState :=
  { ctx := none, nextCtx := 0, plays := 0 }

/-- A page load of the showcase: useGSAP calls runAnimations on
mount (lines 121-126), and each click of the Replay button calls
runAnimations again (line 284, onClick={runAnimations}). The
argument counts the Replay clicks of this page load. -/
def showcasePageLoad : ℕ → ShowcaseState
  | 0 => runAnimations showcaseInit
  | n + 1 => runAnimations (showcasePageLoad n)

/-! ## Navbar (part_007): unguarded entrance, guarded NavLink handlers -/

namespace Navbar

end Navbar

/-! ## Animation-registering mount effects: guards and issued targets

Each component mount effect is embedded as the list of targets of the
engine registrations it issues, as a function of the refs it
dereferences and of the node lists its DOM queries return. A guarded
effect returns without issuing anything when a dereferenced ref is
null; an unguarded registration is issued regardless, handing the
possibly-null node or the selector string to the engine. -/

/-- The build-time NODE_ENV flag distinguishing development from
production. -/
inductive NodeEnv
  | development
  | production
  deriving DecidableEq

/-- Value of the scrub option: a boolean or a number of seconds. -/
inductive ScrubValue
  | flag (b : Bool)
  | amount (n : ℚ)
  deriving DecidableEq

/-- The optional fields accepted by createScrollTriggerConfig
(animations.ts lines 91-100); none encodes an omitted field. -/
structure STOptions where
  start : Option String := none
  endValue : Option String := none
  scrub : Option ScrubValue := none
  pin : Option Bool := none
  markers : Option Bool := none
  refreshPriority : Option ℤ := none
  toggleActions : Option String := none
  once : Option Bool := none
  deriving DecidableEq

/-- The ScrollTrigger configuration object returned by
createScrollTriggerConfig (endValue embeds the source field named
end, a reserved word here). -/
structure STConfig where
  trigger : String
  start : String
  endValue : String
  scrub : ScrubValue
  pin : Bool
  markers : Bool
  refreshPriority : ℤ
  toggleActions : String
  once : Bool
  deriving DecidableEq

/-- Embedding of createScrollTriggerConfig (animations.ts lines
89-111), including the markers default, which is the literal
expression options.markers ?? (NODE_ENV === 'development' ? false :
false) of line 107: both branches of the conditional are false. -/
def createScrollTriggerConfig (env : NodeEnv) (trigger : String)
    (options : STOptions) : STConfig :=
  { trigger := trigger,
    start := options.start.getD "top 80%",
    endValue := options.endValue.getD "bottom 20%",
    scrub := options.scrub.getD (ScrubValue.flag false),
    pin := options.pin.getD false,
    markers := options.markers.getD
      (if env = NodeEnv.development then false else false),
    refreshPriority := options.refreshPriority.getD 1,
    toggleActions := options.toggleActions.getD "play none none none",
    once := options.once.getD true }

/-! ## LenisSmoothScroll (part_006): mount and cleanup -/

/-- A live Lenis instance as configured by the component: the lerp
and smoothWheel options of lines 40-43 and the scroll handlers
registered on it (line 51 registers ScrollTrigger.update). -/
structure LenisInstance where
  lerp : ℚ
  smoothWheel : Bool
  scrollHandlers : List String
  deriving DecidableEq

/-- The shared GSAP ticker: the set of registered frame callbacks
(by id, in registration order) and the lagSmoothing threshold. -/
structure TickerState where
  callbacks : List ℕ
  lagSmoothing : ℚ
  deriving DecidableEq

/-- Global state seen by LenisSmoothScroll: the GSAP ticker, the
component's lenisRef, and a counter supplying fresh callback ids. -/
structure LenisAppState where
  ticker : TickerState
  lenisRef : Option LenisInstance
  nextCallbackId : ℕ
  deriving DecidableEq

/-- Embedding of the mount effect of LenisSmoothScroll (part_006
lines 34-68): create a Lenis instance with lerp 0.1 and smoothWheel,
store it in lenisRef, register ScrollTrigger.update on its scroll
event, add the ticker callback driving lenis.raf, and set
gsap.ticker.lagSmoothing(0). Returns the new state and the id of the
registered ticker callback (the closure the cleanup holds on to). -/
def lenisMount (s : LenisAppState) : LenisAppState × ℕ :=
  let lenis : LenisInstance :=
    { lerp := 1/10, smoothWheel := true,
      scrollHandlers := ["ScrollTrigger.update"] }
  let cb := s.nextCallbackId
  ({ ticker := { callbacks := s.ticker.callbacks ++ [cb],
                 lagSmoothing := 0 },
     lenisRef := some lenis,
     nextCallbackId := s.nextCallbackId + 1 }, cb)

/-- Embedding of the cleanup of LenisSmoothScroll (part_006 lines
70-74): remove the ticker callback registered by the setup, destroy
the Lenis instance, and null the ref. Nothing else is touched. -/
def lenisUnmount (s : LenisAppState) (cb : ℕ) : LenisAppState :=
  { s with
    ticker := { s.ticker with callbacks := s.ticker.callbacks.erase cb },
    lenisRef := none }

/-! ## PageTransition (layout/PageTransition.tsx) -/

namespace PageTransition

/-- One step of the route-transition timeline: an instantaneous
tl.set of the overlay (transformOrigin and optionally scaleY), a
tl.to tween of the overlay scaleY, or the tl.add callback that swaps
the displayed page content. -/
inductive TLStep
  | setOverlay (origin : String) (scaleY : Option ℚ)
  | tweenOverlay (scaleY : ℚ) (duration : ℚ) (ease : String) (delay : ℚ)
  | swapContent
  deriving DecidableEq

/-- The timeline built on a route change (PageTransition.tsx lines
60-76), in order: set origin bottom and scaleY 0, tween scaleY to 1,
swap the displayed children, set origin top, tween scaleY back to 0
after a 0.1 s delay. -/
def transitionTimeline : List TLStep :=
  [ TLStep.setOverlay "bottom" (some 0),
    TLStep.tweenOverlay 1 (1/2) "expo.inOut" 0,
    TLStep.swapContent,
    TLStep.setOverlay "top" none,
    TLStep.tweenOverlay 0 (1/2) "expo.inOut" (1/10) ]

/-- Outcome of the pathname effect: either the displayed children
are swapped directly with no overlay animation, or the transition
timeline is run. -/
inductive EffectResult
  | directSwap
  | timelineRun (steps : List TLStep)
  deriving DecidableEq

/-- Embedding of the pathname effect (PageTransition.tsx lines
32-79): on the first render the content is set directly and the
effect returns; with no overlay node the content is also set
directly; otherwise the wipe timeline is built and run. -/
def pathnameEffect (isFirstRender : Bool) (overlay : Option String) :
    EffectResult :=
  if isFirstRender then EffectResult.directSwap
  else
    match overlay with
    | none => EffectResult.directSwap
    | some _ => EffectResult.timelineRun transitionTimeline

/-- Overlay scaleY after executing a list of timeline steps from the
value v0: tl.set with a scaleY applies it instantly, a tween ends at
its target value, and the other steps leave scaleY unchanged. -/
def scaleYAfter (v0 : ℚ) : List TLStep → ℚ
  | [] => v0
  | step :: rest =>
    scaleYAfter
      (match step with
       | TLStep.setOverlay _ (some v) => v
       | TLStep.setOverlay _ none => v0
       | TLStep.tweenOverlay v _ _ _ => v
       | TLStep.swapContent => v0) rest

end PageTransition

/-! ## Theorems -/

/-- C1: for every pointer-move on a magnetic element the requested
offset is (pointer − center) × strength, on pointer-leave the element
is animated back to exactly (0, 0), and with strength 0.3 and a
pointer displaced (40, -20) px from the center the requested move is
(12, -6) px. -/
theorem c1_useMagnetic_offset_linear :
    (∀ (strength duration : ℚ) (rect : Rect) (clientX clientY : ℚ),
      UseMagnetic.handleMouseMove strength duration (some rect) clientX clientY =
        some { x := (clientX - (rect.left + rect.width / 2)) * strength,
               y := (clientY - (rect.top + rect.height / 2)) * strength,
               duration := duration, ease := "power2.out" }) ∧
    (∀ (resetDuration : ℚ) (rect : Rect),
      UseMagnetic.handleMouseLeave resetDuration (some rect) =
        some { x := 0, y := 0, duration := resetDuration,
               ease := "elastic.out(1, 0.3)" }) ∧
    ((UseMagnetic.handleMouseMove UseMagnetic.defaultStrength (4/10)
        (some { left := 0, top := 0, width := 100, height := 50 }) 90 5).map
        (fun v => (v.x, v.y)) = some (12, -6)) := by
  refine ⟨fun _ _ _ _ _ => rfl, fun _ _ => rfl, ?_⟩
  simp [UseMagnetic.handleMouseMove, UseMagnetic.defaultStrength]
  norm_num

/-- C8: in MagneticButton, every mouse-move requests the button
displacement offset × 0.3 and the inner-text displacement offset ×
0.15, which is exactly half the button displacement; on mouse-leave
both are animated back to (0, 0). -/
theorem c8_magneticButton_text_half_of_button :
    (∀ (buttonRect textRect : Rect) (clientX clientY : ℚ),
      ∃ calls : MagneticButton.MoveCalls,
        MagneticButton.handleMouseMove (some buttonRect) (some textRect)
          clientX clientY = some calls ∧
        calls.button.x =
          (clientX - buttonRect.left - buttonRect.width / 2) * (3/10) ∧
        calls.button.y =
          (clientY - buttonRect.top - buttonRect.height / 2) * (3/10) ∧
        calls.text.x = calls.button.x / 2 ∧
        calls.text.y = calls.button.y / 2) ∧
    (∀ (buttonRect textRect : Rect),
      ∃ calls : MagneticButton.MoveCalls,
        MagneticButton.handleMouseLeave (some buttonRect) (some textRect) =
          some calls ∧
        calls.button.x = 0 ∧ calls.button.y = 0 ∧
        calls.text.x = 0 ∧ calls.text.y = 0) := by
  constructor
  · intro buttonRect textRect clientX clientY
    refine ⟨_, rfl, rfl, rfl, ?_, ?_⟩ <;> ring
  · intro buttonRect textRect
    exact ⟨_, rfl, rfl, rfl, rfl, rfl⟩

/-- C6 counterexample: with markers explicitly set to true in the
options, the configuration returned under production still has
markers = true, so the markers field is not false under production
for every options argument. -/
theorem c6_markers_true_in_production_counterexample :
    ¬ ((createScrollTriggerConfig NodeEnv.production "section"
        { markers := some true }).markers = false) := by
  simp [createScrollTriggerConfig]

/-- C6 amended: changing the build-time flag from development to
production changes nothing at all in the configuration returned by
createScrollTriggerConfig (both branches of the markers default are
the literal false), and under production the markers field is false
whenever the caller does not explicitly pass a markers option. -/
theorem c6_env_flag_inert_markers_default_false :
    ∀ (trigger : String) (options : STOptions),
      createScrollTriggerConfig NodeEnv.development trigger options =
        createScrollTriggerConfig NodeEnv.production trigger options ∧
      (options.markers = none →
        (createScrollTriggerConfig NodeEnv.production trigger options).markers
          = false) := by
  intro trigger options
  refine ⟨rfl, fun h => ?_⟩
  simp [createScrollTriggerConfig, h]

/-- C6 amended witness: at a concrete trigger with no options, the
production configuration has markers = false. -/
theorem c6_env_flag_inert_markers_default_false_witness :
    (createScrollTriggerConfig NodeEnv.production "hero" {}).markers = false :=
  (c6_env_flag_inert_markers_default_false "hero" {}).2 rfl

/-- C3 counterexample: one click of the Replay button after the page
load makes the showcase entrance animations play a second time, so a
later event during the same page load does cause a configured
entrance animation to play again. -/
theorem c3_replay_plays_again_counterexample :
    ¬ ((showcasePageLoad 1).plays ≤ 1) := by
  decide

/-- Helper: an entrance trigger plays at most once from any state, and
never again once it is no longer alive. -/
lemma triggerPlays_le_one (evs : List ScrollEvent) :
    ∀ s : TriggerState, triggerPlays s evs ≤ if s.alive then 1 else 0 := by
  induction evs with
  | nil => intro s; simp [triggerPlays]
  | cons e rest ih =>
    intro s
    cases e with
    | enter =>
      by_cases h : s.alive = true
      · have := ih { played := true, alive := false }
        simp [triggerPlays, onceTriggerStep, h] at this ⊢
        omega
      · have hs : s.alive = false := by
          cases hh : s.alive
          · rfl
          · exact absurd hh h
        have := ih s
        simp [triggerPlays, onceTriggerStep, hs] at this ⊢
        omega
    | leave =>
      have := ih s
      simpa [triggerPlays, onceTriggerStep] using this
    | enterBack =>
      have := ih s
      simpa [triggerPlays, onceTriggerStep] using this
    | leaveBack =>
      have := ih s
      simpa [triggerPlays, onceTriggerStep] using this

/-- Helper: each runAnimations call adds exactly one play. -/
lemma runAnimations_plays (s : ShowcaseState) :
    (runAnimations s).plays = s.plays + 1 := by
  cases h : s.ctx <;> simp [runAnimations, h]

/-- C3 amended: every scroll-triggered entrance animation (registered
with toggleActions "play none none none" and once: true) fires at
most once per page load over any sequence of scroll events; the
GsapBasicsShowcase entrance animations play once on mount but are
deliberately re-fired by the Replay button, playing n + 1 times on a
page load with n Replay clicks. -/
theorem c3_entrance_animations_once :
    (∀ evs : List ScrollEvent, triggerPlays initTrigger evs ≤ 1) ∧
    ((showcasePageLoad 0).plays = 1) ∧
    (∀ n : ℕ, (showcasePageLoad n).plays = n + 1) := by
  refine ⟨fun evs => ?_, rfl, fun n => ?_⟩
  · have := triggerPlays_le_one evs initTrigger
    simpa [initTrigger] using this
  · induction n with
    | zero => rfl
    | succ k ih =>
      simp [showcasePageLoad, runAnimations_plays, ih]

/-- C9: on the first render the pathname effect shows the content
directly with no transition; on a route change (with the overlay
mounted) it runs the wipe timeline, in which the content swap is the
unique swap step, placed after the overlay has been tweened to
scaleY = 1 and kept at 1 until the final tween returns it to 0. -/
theorem c9_page_transition_swap_under_cover :
    (∀ overlay : Option String,
      PageTransition.pathnameEffect true overlay =
        PageTransition.EffectResult.directSwap) ∧
    (∀ el : String,
      PageTransition.pathnameEffect false (some el) =
        PageTransition.EffectResult.timelineRun
          PageTransition.transitionTimeline) ∧
    (PageTransition.transitionTimeline[2]? =
      some PageTransition.TLStep.swapContent) ∧
    (PageTransition.transitionTimeline.count
      PageTransition.TLStep.swapContent = 1) ∧
    (∀ v0 : ℚ,
      PageTransition.scaleYAfter v0 (PageTransition.transitionTimeline.take 2)
        = 1) ∧
    (∀ v0 : ℚ,
      PageTransition.scaleYAfter v0 (PageTransition.transitionTimeline.take 4)
        = 1) ∧
    (∀ v0 : ℚ,
      PageTransition.scaleYAfter v0 PageTransition.transitionTimeline = 0) := by
  refine ⟨fun _ => rfl, fun _ => rfl, rfl, ?_, fun _ => rfl, fun _ => rfl,
          fun _ => rfl⟩
  decide

/-- C7: a mount of LenisSmoothScroll registers exactly one fresh
ticker callback and creates the Lenis instance; the paired unmount
removes exactly that callback and destroys that instance, so the
ticker's callback list and the smooth-scroll instance are as they
were before the mount. -/
theorem c7_lenis_cleanup_restores_state :
    ∀ s : LenisAppState, s.lenisRef = none →
      (∀ c ∈ s.ticker.callbacks, c < s.nextCallbackId) →
      (lenisMount s).1.ticker.callbacks =
        s.ticker.callbacks ++ [(lenisMount s).2] ∧
      (lenisMount s).1.lenisRef =
        some { lerp := 1/10, smoothWheel := true,
               scrollHandlers := ["ScrollTrigger.update"] } ∧
      (lenisUnmount (lenisMount s).1 (lenisMount s).2).ticker.callbacks =
        s.ticker.callbacks ∧
      (lenisUnmount (lenisMount s).1 (lenisMount s).2).lenisRef =
        s.lenisRef := by
  intro s href hfresh
  have hnotmem : s.nextCallbackId ∉ s.ticker.callbacks := by
    intro hmem
    exact lt_irrefl _ (hfresh _ hmem)
  refine ⟨rfl, rfl, ?_, ?_⟩
  · show (s.ticker.callbacks ++ [s.nextCallbackId]).erase s.nextCallbackId =
      s.ticker.callbacks
    rw [List.erase_append_right _ hnotmem, List.erase_cons_head,
      List.append_nil]
  · show none = s.lenisRef
    exact href.symm

/-- C7 witness: at a concrete pre-mount state with one existing
ticker callback, mount followed by unmount restores the callback
list and leaves no smooth-scroll instance. -/
theorem c7_lenis_cleanup_restores_state_witness :
    (lenisUnmount
      (lenisMount { ticker := { callbacks := [0], lagSmoothing := 500 },
                    lenisRef := none, nextCallbackId := 1 }).1
      (lenisMount { ticker := { callbacks := [0], lagSmoothing := 500 },
                    lenisRef := none, nextCallbackId := 1 }).2).ticker.callbacks
      = [0] :=
  (c7_lenis_cleanup_restores_state
    { ticker := { callbacks := [0], lagSmoothing := 500 },
      lenisRef := none, nextCallbackId := 1 } rfl
    (by decide)).2.2.1

/-- Helper: at or before the start threshold the scrub target is 0. -/
lemma scrubTarget_eq_zero {m : ScrubMapping} (h : m.startPos < m.endPos)
    {p : ℚ} (hp : p ≤ m.startPos) : scrubTarget m p = 0 := by
  unfold scrubTarget
  have hden : (0:ℚ) < m.endPos - m.startPos := sub_pos.mpr h
  have hratio : (p - m.startPos) / (m.endPos - m.startPos) ≤ 0 :=
    div_nonpos_iff.mpr (Or.inr ⟨sub_nonpos.mpr hp, le_of_lt hden⟩)
  have hmin : min 1 ((p - m.startPos) / (m.endPos - m.startPos)) ≤ 0 :=
    le_trans (min_le_right _ _) hratio
  exact max_eq_left hmin

/-- Helper: at or after the end threshold the scrub target is 1. -/
lemma scrubTarget_eq_one {m : ScrubMapping} (h : m.startPos < m.endPos)
    {p : ℚ} (hp : m.endPos ≤ p) : scrubTarget m p = 1 := by
  unfold scrubTarget
  have hden : (0:ℚ) < m.endPos - m.startPos := sub_pos.mpr h
  have hratio : 1 ≤ (p - m.startPos) / (m.endPos - m.startPos) :=
    (one_le_div hden).mpr (by linarith)
  rw [min_eq_left hratio]
  exact max_eq_right (by norm_num)

/-- Helper: the scrub target is non-decreasing in the scroll position. -/
lemma scrubTarget_mono {m : ScrubMapping} (h : m.startPos < m.endPos)
    {p q : ℚ} (hpq : p ≤ q) : scrubTarget m p ≤ scrubTarget m q := by
  unfold scrubTarget
  have hden : (0:ℚ) < m.endPos - m.startPos := sub_pos.mpr h
  have hdiv : (p - m.startPos) / (m.endPos - m.startPos) ≤
      (q - m.startPos) / (m.endPos - m.startPos) :=
    div_le_div_of_nonneg_right (by linarith) (le_of_lt hden)
  exact max_le_max (le_refl 0) (min_le_min (le_refl 1) hdiv)

/-- Helper: for a scrub: true mapping the displayed progress is a
pure function of the last scroll position (the initial displayed
value when the history is empty). -/
lemma runScrub_instant (m : ScrubMapping)
    (hm : m.scrub = ScrubSetting.instant) :
    ∀ (h : List (ℚ × ℚ)) (d0 : ℚ),
      runScrub m d0 h = ((lastScroll h).map (scrubTarget m)).getD d0 := by
  intro h
  induction h with
  | nil => intro d0; rfl
  | cons a rest ih =>
    intro d0
    obtain ⟨p, dt⟩ := a
    cases rest with
    | nil => simp [runScrub, hm, lastScroll]
    | cons b bs =>
      have hlast : lastScroll ((p, dt) :: b :: bs) = lastScroll (b :: bs) := by
        simp [lastScroll, List.getLast?_cons_cons]
      rw [hlast]
      have hstep : runScrub m d0 ((p, dt) :: b :: bs) =
          runScrub m (scrubTarget m p) (b :: bs) := by
        simp [runScrub, hm]
      rw [hstep, ih (scrubTarget m p)]
      obtain ⟨q, hq⟩ : ∃ q, (b :: bs).getLast? = some q :=
        ⟨(b :: bs).getLast (by simp), List.getLast?_eq_getLast _ _⟩
      simp [lastScroll, hq]

/-- Helper: a mapping whose start threshold lies strictly below its
end threshold has the clamped monotone scroll-to-progress profile. -/
lemma clampedMonotone_of_lt {m : ScrubMapping}
    (h : m.startPos < m.endPos) : ClampedMonotone m :=
  ⟨fun _ hp => scrubTarget_eq_zero h hp,
   fun _ hp => scrubTarget_eq_one h hp,
   fun _ _ hpq => scrubTarget_mono h hpq⟩

/-- C2 counterexample: the ProcessSection line tween is a registered
scroll-scrubbed mapping (scrub: 1), and its displayed animation
progress is not a function of the scroll position within its
thresholds: two scroll histories ending at the same position (the
end threshold, held for one half-second frame versus two) display
1/2 versus 3/4. -/
theorem c2_process_scrub_lag_counterexample :
    (processLineMapping 120 100 200).scrub = ScrubSetting.smoothed 1 ∧
    lastScroll [((140:ℚ), (1:ℚ)/2)] =
      lastScroll [((140:ℚ), (1:ℚ)/2), (140, 1/2)] ∧
    runScrub (processLineMapping 120 100 200) 0 [((140:ℚ), (1:ℚ)/2)] ≠
      runScrub (processLineMapping 120 100 200) 0
        [((140:ℚ), (1:ℚ)/2), (140, 1/2)] := by
  refine ⟨rfl, rfl, ?_⟩
  have hx : runScrub (processLineMapping 120 100 200) 0
      [((140:ℚ), (1:ℚ)/2)] = 1/2 := by
    simp [runScrub, processLineMapping, scrubTarget, scrubStep]
    norm_num
  have hy : runScrub (processLineMapping 120 100 200) 0
      [((140:ℚ), (1:ℚ)/2), (140, 1/2)] = 3/4 := by
    simp [runScrub, processLineMapping, scrubTarget, scrubStep]
    norm_num
  rw [hx, hy]
  norm_num

/-- C2 amended: for every scroll-scrubbed mapping registered by a
section — HorizontalScrollSection, the FeatureList items and the
AboutHero parallax (scrub: true), and SVGMorphSection, the
TimelineSection line and the ProcessSection line (scrub: 1) — the
scroll-to-progress mapping through the registered start/end
thresholds is 0 at or before the start threshold, 1 at or after the
end threshold and non-decreasing in between; for the scrub: true
registrations the displayed animation progress is exactly that
function of the latest scroll position, while the scrub: 1
registrations display a smoothed, history-dependent chase of it. -/
theorem c2_registered_scrub_targets_monotone_clamped :
    ∀ (sectionTop sectionHeight totalScrollWidth itemTop vh : ℚ),
      0 < totalScrollWidth → 0 < sectionHeight → 0 < vh →
      (ClampedMonotone (horizontalScrollMapping sectionTop totalScrollWidth) ∧
       ClampedMonotone (featureItemMapping itemTop vh) ∧
       ClampedMonotone (aboutHeroParallaxMapping sectionTop sectionHeight) ∧
       ClampedMonotone (svgMorphMapping sectionTop sectionHeight vh) ∧
       ClampedMonotone (timelineLineMapping sectionTop sectionHeight vh) ∧
       ClampedMonotone (processLineMapping sectionTop sectionHeight vh)) ∧
      ((∀ (d0 : ℚ) (frames : List (ℚ × ℚ)),
         runScrub (horizontalScrollMapping sectionTop totalScrollWidth)
             d0 frames =
           ((lastScroll frames).map
             (scrubTarget
               (horizontalScrollMapping sectionTop totalScrollWidth))).getD
             d0) ∧
       (∀ (d0 : ℚ) (frames : List (ℚ × ℚ)),
         runScrub (featureItemMapping itemTop vh) d0 frames =
           ((lastScroll frames).map
             (scrubTarget (featureItemMapping itemTop vh))).getD d0) ∧
       (∀ (d0 : ℚ) (frames : List (ℚ × ℚ)),
         runScrub (aboutHeroParallaxMapping sectionTop sectionHeight)
             d0 frames =
           ((lastScroll frames).map
             (scrubTarget
               (aboutHeroParallaxMapping sectionTop sectionHeight))).getD
             d0)) := by
  intro sectionTop sectionHeight totalScrollWidth itemTop vh hw hh hvh
  refine ⟨⟨?_, ?_, ?_, ?_, ?_, ?_⟩,
          fun d0 frames => runScrub_instant _ rfl frames d0,
          fun d0 frames => runScrub_instant _ rfl frames d0,
          fun d0 frames => runScrub_instant _ rfl frames d0⟩
  · exact clampedMonotone_of_lt
      (by simp only [horizontalScrollMapping]; linarith)
  · exact clampedMonotone_of_lt
      (by simp only [featureItemMapping]; linarith)
  · exact clampedMonotone_of_lt
      (by simp only [aboutHeroParallaxMapping]; linarith)
  · exact clampedMonotone_of_lt
      (by simp only [svgMorphMapping]; linarith)
  · exact clampedMonotone_of_lt
      (by simp only [timelineLineMapping]; linarith)
  · exact clampedMonotone_of_lt
      (by simp only [processLineMapping]; linarith)

/-- C2 amended witness: at concrete layout parameters, the
ProcessSection line target is 0 before its start threshold and 1
after its end threshold, and the horizontal-scroll target is
monotone between two concrete positions. -/
theorem c2_registered_scrub_targets_monotone_clamped_witness :
    scrubTarget (processLineMapping 0 100 200) (-120) = 0 ∧
    scrubTarget (processLineMapping 0 100 200) 20 = 1 ∧
    scrubTarget (horizontalScrollMapping 0 100) 30 ≤
      scrubTarget (horizontalScrollMapping 0 100) 60 := by
  have h := c2_registered_scrub_targets_monotone_clamped 0 100 100 1000 200
    (by norm_num) (by norm_num) (by norm_num)
  exact ⟨h.1.2.2.2.2.2.1 (-120) (by norm_num [processLineMapping]),
         h.1.2.2.2.2.2.2.1 20 (by norm_num [processLineMapping]),
         h.1.1.2.2 30 60 (by norm_num)⟩

/-- C4 counterexample: SVGMorphSection registers its timeline with
scrub: 1, and under that smoothing two scroll histories ending at the
same scroll position (the end threshold, reached for one half-second
frame versus two) display different animation progress (1/2 versus
3/4), so not every scrub mapping is stateless with no history, lag or
smoothing. -/
theorem c4_svgMorph_scrub_lag_counterexample :
    (svgMorphMapping 100 100 200).scrub = ScrubSetting.smoothed 1 ∧
    lastScroll [((100:ℚ), (1:ℚ)/2)] =
      lastScroll [((100:ℚ), (1:ℚ)/2), (100, 1/2)] ∧
    runScrub (svgMorphMapping 100 100 200) 0 [((100:ℚ), (1:ℚ)/2)] ≠
      runScrub (svgMorphMapping 100 100 200) 0
        [((100:ℚ), (1:ℚ)/2), (100, 1/2)] := by
  refine ⟨rfl, rfl, ?_⟩
  have hx : runScrub (svgMorphMapping 100 100 200) 0
      [((100:ℚ), (1:ℚ)/2)] = 1/2 := by
    simp [runScrub, svgMorphMapping, scrubTarget, scrubStep]
    norm_num
  have hy : runScrub (svgMorphMapping 100 100 200) 0
      [((100:ℚ), (1:ℚ)/2), (100, 1/2)] = 3/4 := by
    simp [runScrub, svgMorphMapping, scrubTarget, scrubStep]
    norm_num
  rw [hx, hy]
  norm_num

/-- C4 amended: the scrub mappings registered with scrub: true
(HorizontalScrollSection, the FeatureList items and the AboutHero
parallax) are stateless — the displayed progress after any two frame
histories ending at the same scroll position is the same, recomputed
purely from the current scroll position; the three scrub: 1
registrations (SVGMorphSection, the TimelineSection line and the
ProcessSection line) instead chase the target with a one-second
smoothing window, so their displayed progress depends on the scroll
history, although each target progress is still the pure clamped
function of the scroll position. -/
theorem c4_scrub_instant_stateless :
    (∀ (sectionTop totalScrollWidth d0 : ℚ) (h1 h2 : List (ℚ × ℚ)),
      lastScroll h1 = lastScroll h2 →
      runScrub (horizontalScrollMapping sectionTop totalScrollWidth) d0 h1 =
        runScrub (horizontalScrollMapping sectionTop totalScrollWidth) d0 h2) ∧
    (∀ (itemTop vh d0 : ℚ) (h1 h2 : List (ℚ × ℚ)),
      lastScroll h1 = lastScroll h2 →
      runScrub (featureItemMapping itemTop vh) d0 h1 =
        runScrub (featureItemMapping itemTop vh) d0 h2) ∧
    (∀ (sectionTop sectionHeight d0 : ℚ) (h1 h2 : List (ℚ × ℚ)),
      lastScroll h1 = lastScroll h2 →
      runScrub (aboutHeroParallaxMapping sectionTop sectionHeight) d0 h1 =
        runScrub (aboutHeroParallaxMapping sectionTop sectionHeight) d0 h2) ∧
    (∀ sectionTop sectionHeight vh : ℚ,
      (svgMorphMapping sectionTop sectionHeight vh).scrub =
        ScrubSetting.smoothed 1 ∧
      (timelineLineMapping sectionTop sectionHeight vh).scrub =
        ScrubSetting.smoothed 1 ∧
      (processLineMapping sectionTop sectionHeight vh).scrub =
        ScrubSetting.smoothed 1) := by
  refine ⟨fun sectionTop totalScrollWidth d0 h1 h2 hl => ?_,
          fun itemTop vh d0 h1 h2 hl => ?_,
          fun sectionTop sectionHeight d0 h1 h2 hl => ?_,
          fun _ _ _ => ⟨rfl, rfl, rfl⟩⟩
  · rw [runScrub_instant _ rfl, runScrub_instant _ rfl, hl]
  · rw [runScrub_instant _ rfl, runScrub_instant _ rfl, hl]
  · rw [runScrub_instant _ rfl, runScrub_instant _ rfl, hl]

/-- C4 amended witness: two concrete histories ending at scroll
position 50 display the same progress under the horizontal-scroll
mapping. -/
theorem c4_scrub_instant_stateless_witness :
    runScrub (horizontalScrollMapping 0 100) 0 [((50:ℚ), (1:ℚ))] =
      runScrub (horizontalScrollMapping 0 100) 0
        [((0:ℚ), (1:ℚ)), (50, 2)] :=
  c4_scrub_instant_stateless.1 0 100 0 [((50:ℚ), (1:ℚ))]
    [((0:ℚ), (1:ℚ)), (50, 2)] rfl
